import Mathlib

/-!
Verification of the GestureAgent repository's gesture-detection engine,
configuration manager, screenshot capture service, orchestrator loop and AI
assistant client, as shallowly embedded Lean definitions.

Real-valued quantities of the Python source (normalized landmark coordinates,
epoch timestamps in seconds) are modelled as rationals (`ℚ`).
-/

set_option allowUnsafeReducibility true in
attribute [semireducible] Rat.add Rat.sub Rat.mul Rat.inv Rat.ofScientific

/-- A single hand/face landmark in normalized image coordinates, as produced
by the landmark model (`landmarks[i].x`, `landmarks[i].y`). -/
structure Lmk where
  x : ℚ
  y : ℚ
deriving DecidableEq

/-- The per-hand landmark list (`hand_landmarks.landmark`), modelled as a total
function from the landmark index (0–20) to its point. -/
def Landmarks : Type := Nat → Lmk

/-! ## `GestureDetector.detect_wave_gesture` (src/src/gesture_detector.py:25-62,
identical in src/gesture-agent-python/src/gesture_detector.py:56-93). -/

/-- The `fingers_up` list: each non-thumb fingertip (8/12/16/20) compared
against its PIP joint (6/10/14/18); `tip.y < pip.y` means the finger is up. -/
def fingers_up (landmarks : Landmarks) : List Bool :=
  [ decide ((landmarks 8).y < (landmarks 6).y)
  , decide ((landmarks 12).y < (landmarks 10).y)
  , decide ((landmarks 16).y < (landmarks 14).y)
  , decide ((landmarks 20).y < (landmarks 18).y) ]

/-- `np.diff`: successive differences of a list of samples. -/
def npDiff : List ℚ → List ℚ
  | a :: b :: t => (b - a) :: npDiff (b :: t)
  | _ => []

/-- The `direction_changes` loop: counts indices `i ≥ 1` where `x_diff[i]` and
`x_diff[i-1]` have strictly opposite signs. -/
def direction_changes : List ℚ → Nat
  | a :: b :: t =>
      (if (b > 0 ∧ a < 0) ∨ (b < 0 ∧ a > 0) then 1 else 0) + direction_changes (b :: t)
  | _ => 0

/-- `max(x_positions)` of a (nonempty, in all uses) sample list. -/
def listMax : List ℚ → ℚ
  | [] => 0
  | a :: t => t.foldl max a

/-- `min(x_positions)` of a (nonempty, in all uses) sample list. -/
def listMin : List ℚ → ℚ
  | [] => 0
  | a :: t => t.foldl min a

/-- The wave history after this frame's append and cap: `wave_history.append(wrist.x)`
followed by `wave_history.pop(0)` when the length exceeds 10. -/
def wave_capped (landmarks : Landmarks) (wave_history : List ℚ) : List ℚ :=
  if 10 < (wave_history ++ [(landmarks 0).x]).length then
    (wave_history ++ [(landmarks 0).x]).tail
  else
    wave_history ++ [(landmarks 0).x]

/-- `GestureDetector.detect_wave_gesture`, with the mutable `self.wave_history`
made explicit: takes the history before the frame, returns the fired flag and
the history after the frame. -/
def detect_wave_gesture (landmarks : Landmarks) (wave_history : List ℚ) :
    Bool × List ℚ :=
  if 3 ≤ (fingers_up landmarks).countP id then
    let h2 := wave_capped landmarks wave_history
    if 8 ≤ h2.length then
      let x_diff := npDiff h2
      let movement_range := listMax h2 - listMin h2
      if 2 ≤ direction_changes x_diff ∧ movement_range > 0.1 then
        (true, [])
      else
        (false, h2)
    else
      (false, h2)
  else
    (false, [])

/-- A landmark assignment with the wrist at `x = wx` and all four non-thumb
fingers up (fingertips at `y = 0`, every other landmark at `y = 1`). -/
def wave_lmk (wx : ℚ) : Landmarks := fun i =>
  if i = 0 then ⟨wx, 1⟩
  else if i = 8 ∨ i = 12 ∨ i = 16 ∨ i = 20 then ⟨0, 0⟩
  else ⟨0, 1⟩

/-- A landmark assignment with every landmark at the same point: no finger is
up (no strict inequality holds), and no palm-up condition holds. -/
def flat_lmk : Landmarks := fun _ => ⟨0, 0⟩

/-- Feeding one frame per sample through `detect_wave_gesture` (all fingers up,
wrist at the sample's x), threading the history; yields the per-frame
(fired, history-after) pairs. -/
def wave_trace : List ℚ → List ℚ → List (Bool × List ℚ)
  | [], _ => []
  | x :: xs, hist =>
      let r := detect_wave_gesture (wave_lmk x) hist
      r :: wave_trace xs r.2

/-- The synthetic wrist x-sample sequence of the spec's testable property 3. -/
def wave_sample_xs : List ℚ := [0.3, 0.4, 0.5, 0.4, 0.3, 0.4, 0.5, 0.4, 0.3, 0.4]

/-! ## `GestureDetector.detect_palm_up_gesture` (src/src/gesture_detector.py:64-104,
identical in src/gesture-agent-python/src/gesture_detector.py:95-135). -/

/-- `palm_facing_up`: all four non-thumb fingertips strictly above their MCP
joints (5/9/13/17). -/
def palm_facing_up (landmarks : Landmarks) : Bool :=
  decide ((landmarks 8).y < (landmarks 5).y) &&
  decide ((landmarks 12).y < (landmarks 9).y) &&
  decide ((landmarks 16).y < (landmarks 13).y) &&
  decide ((landmarks 20).y < (landmarks 17).y)

/-- `fingers_extended`: all four tip/MCP vertical gaps exceed 0.05 in absolute
value. -/
def fingers_extended (landmarks : Landmarks) : Bool :=
  decide (|(landmarks 8).y - (landmarks 5).y| > 0.05) &&
  decide (|(landmarks 12).y - (landmarks 9).y| > 0.05) &&
  decide (|(landmarks 16).y - (landmarks 13).y| > 0.05) &&
  decide (|(landmarks 20).y - (landmarks 17).y| > 0.05)

/-- The conjunction `palm_facing_up and fingers_extended` guarding the dwell
timer. -/
def palm_cond (landmarks : Landmarks) : Bool :=
  palm_facing_up landmarks && fingers_extended landmarks

/-- `GestureDetector.detect_palm_up_gesture`, with the mutable
`self.palm_up_start_time` made explicit and `time.time()` passed as `now`:
returns the fired flag and the timer after the frame. -/
def detect_palm_up_gesture (landmarks : Landmarks) (palm_up_start_time : Option ℚ)
    (now : ℚ) : Bool × Option ℚ :=
  if palm_facing_up landmarks && fingers_extended landmarks then
    match palm_up_start_time with
    | none => (false, some now)
    | some t0 => if now - t0 > 1.5 then (true, none) else (false, some t0)
  else
    (false, none)

/-- A landmark assignment satisfying both palm-up conditions: fingertips at
`y = 0`, all other landmarks (so all MCP joints) at `y = 0.1`. -/
def palm_lmk : Landmarks := fun i =>
  if i = 8 ∨ i = 12 ∨ i = 16 ∨ i = 20 then ⟨0, 0⟩ else ⟨0, 0.1⟩

/-- Feeding a sequence of (landmarks, timestamp) frames through
`detect_palm_up_gesture`, threading the dwell timer; yields the per-frame
(fired, timer-after) pairs. -/
def palm_trace : List (Landmarks × ℚ) → Option ℚ → List (Bool × Option ℚ)
  | [], _ => []
  | (lm, now) :: rest, s =>
      let r := detect_palm_up_gesture lm s now
      r :: palm_trace rest r.2

/-- Sanity anchor relating the named condition to the guard of the detector. -/
theorem palm_cond_eq (lm : Landmarks) :
    palm_cond lm = (palm_facing_up lm && fingers_extended lm) := rfl

/-- C1. Wave detection: a frame with fewer than 3 of the 4 non-thumb fingers up
clears the whole history and reports no wave; the history stays capped at 10
samples (oldest dropped); the detector fires exactly when, with at least 3
fingers up, the capped history holds at least 8 samples, the count of sign
changes between consecutive successive differences is at least 2, and the
history's max minus min exceeds 0.1; firing empties the history. On the sample
sequence [0.3,0.4,0.5,0.4,0.3,0.4,0.5,0.4,0.3,0.4] with all fingers up every
frame, it fires exactly once over the 10 frames and the history is empty
immediately after the firing frame. -/
theorem wave_detection_spec (lm : Landmarks) (hist : List ℚ) :
    ((fingers_up lm).countP id < 3 → detect_wave_gesture lm hist = (false, [])) ∧
    (hist.length ≤ 10 → (detect_wave_gesture lm hist).2.length ≤ 10) ∧
    ((detect_wave_gesture lm hist).1 = true ↔
      (3 ≤ (fingers_up lm).countP id ∧
       8 ≤ (wave_capped lm hist).length ∧
       2 ≤ direction_changes (npDiff (wave_capped lm hist)) ∧
       listMax (wave_capped lm hist) - listMin (wave_capped lm hist) > 0.1)) ∧
    ((detect_wave_gesture lm hist).1 = true → (detect_wave_gesture lm hist).2 = []) ∧
    (wave_trace wave_sample_xs []).countP Prod.fst = 1 ∧
    (∀ p ∈ wave_trace wave_sample_xs [], p.1 = true → p.2 = []) := by
  refine ⟨?_, ?_, ?_, ?_, ?_, ?_⟩
  · intro hlt
    have h3 : ¬ 3 ≤ (fingers_up lm).countP id := by omega
    simp [detect_wave_gesture, h3]
  · intro hlen
    have hcap : (wave_capped lm hist).length ≤ 10 := by
      unfold wave_capped
      by_cases h : 10 < (hist ++ [(lm 0).x]).length
      · rw [if_pos h]
        simp only [List.length_tail, List.length_append, List.length_singleton] at h ⊢
        omega
      · rw [if_neg h]
        simp only [List.length_append, List.length_singleton] at h ⊢
        omega
    unfold detect_wave_gesture
    by_cases h3 : 3 ≤ (fingers_up lm).countP id
    · simp only [h3, if_true]
      by_cases h8 : 8 ≤ (wave_capped lm hist).length
      · by_cases hf : 2 ≤ direction_changes (npDiff (wave_capped lm hist)) ∧
            listMax (wave_capped lm hist) - listMin (wave_capped lm hist) > 0.1
        · simp [h8, hf]
        · simp [h8, hf, hcap]
      · simp [h8, hcap]
    · simp [h3]
  · unfold detect_wave_gesture
    by_cases h3 : 3 ≤ (fingers_up lm).countP id
    · by_cases h8 : 8 ≤ (wave_capped lm hist).length
      · by_cases hf : 2 ≤ direction_changes (npDiff (wave_capped lm hist)) ∧
            listMax (wave_capped lm hist) - listMin (wave_capped lm hist) > 0.1
        · simp [h3, h8, hf]
        · simp [h3, h8, hf]
      · simp [h3, h8]
    · simp [h3]
  · unfold detect_wave_gesture
    by_cases h3 : 3 ≤ (fingers_up lm).countP id
    · simp only [h3, if_true]
      by_cases h8 : 8 ≤ (wave_capped lm hist).length
      · by_cases hf : 2 ≤ direction_changes (npDiff (wave_capped lm hist)) ∧
            listMax (wave_capped lm hist) - listMin (wave_capped lm hist) > 0.1
        · simp [h8, hf]
        · simp [h8, hf]
      · simp [h8]
    · simp [h3]
  · decide
  · decide

/-- C2 counterexample. With the dwell timer started at time 0 and the palm-up
condition holding on every frame since, a frame at time 1.5 has "at least
1.5 s" elapsed, yet the detector does not fire (the source compares with a
strict `>`): the two-frame trace returns no firing at all. -/
theorem palm_up_dwell_boundary_cex :
    palm_cond palm_lmk = true ∧
    ((1.5 : ℚ) - 0 ≥ 1.5) ∧
    palm_trace [(palm_lmk, 0), (palm_lmk, 1.5)] none =
      [(false, some 0), (false, some 0)] := by
  decide

/-- C2 (amended). Palm-up dwell: the detector fires on a frame iff the palm-up
condition (all four fingertips above their MCP joints, all four gaps > 0.05)
holds on that frame, the dwell timer is set to some start `t0`, and strictly
more than 1.5 s have elapsed since `t0`; firing resets the timer to unset; any
frame failing the condition resets the timer to unset; a conforming frame with
an unset timer starts it at the current time without firing. A pose held 1.4 s
does not fire, one held 1.6 s fires exactly once (and the timer is unset right
after), and a single broken frame at 1.0 s forces a fresh full dwell. -/
theorem palm_up_dwell_spec (lm : Landmarks) (s : Option ℚ) (now : ℚ) :
    ((detect_palm_up_gesture lm s now).1 = true ↔
      (palm_cond lm = true ∧ ∃ t0, s = some t0 ∧ now - t0 > 1.5)) ∧
    ((detect_palm_up_gesture lm s now).1 = true →
      (detect_palm_up_gesture lm s now).2 = none) ∧
    (palm_cond lm = false → detect_palm_up_gesture lm s now = (false, none)) ∧
    (palm_cond lm = true → detect_palm_up_gesture lm none now = (false, some now)) ∧
    (palm_cond lm = true → ∀ t0, s = some t0 → ¬ (now - t0 > 1.5) →
      detect_palm_up_gesture lm s now = (false, some t0)) ∧
    palm_trace [(palm_lmk, 0), (palm_lmk, 1.4)] none =
      [(false, some 0), (false, some 0)] ∧
    palm_trace [(palm_lmk, 0), (palm_lmk, 1.6)] none =
      [(false, some 0), (true, none)] ∧
    palm_trace [(palm_lmk, 0), (flat_lmk, 1.0), (palm_lmk, 1.1), (palm_lmk, 2.5),
        (palm_lmk, 2.7)] none =
      [(false, some 0), (false, none), (false, some 1.1), (false, some 1.1),
        (true, none)] := by
  refine ⟨?_, ?_, ?_, ?_, ?_, by decide, by decide, by decide⟩
  · unfold detect_palm_up_gesture
    by_cases hc : palm_facing_up lm && fingers_extended lm
    · cases s with
      | none => simp [hc, palm_cond]
      | some t0 =>
        by_cases ht : now - t0 > 1.5
        · simp [hc, ht, palm_cond]
        · simp [hc, ht, palm_cond]
    · simp [hc, palm_cond]
  · unfold detect_palm_up_gesture
    by_cases hc : palm_facing_up lm && fingers_extended lm
    · cases s with
      | none => simp [hc]
      | some t0 =>
        by_cases ht : now - t0 > 1.5
        · simp [hc, ht]
        · simp [hc, ht]
    · simp [hc]
  · intro hc
    unfold palm_cond at hc
    simp only [detect_palm_up_gesture, hc, Bool.false_eq_true, if_false]
  · intro hc
    unfold palm_cond at hc
    simp [detect_palm_up_gesture, hc]
  · intro hc t0 hs ht
    unfold palm_cond at hc
    subst hs
    simp [detect_palm_up_gesture, hc, ht]

/-! ## Label composition of the extended engine
(`GestureDetector.process_frame`, src/gesture-agent-python/src/gesture_detector.py:553-586). -/

/-- The if/elif chain combining the detected left-hand, right-hand and face
gestures into one label, in the source's priority order. -/
def compose_gesture_label (left right face : Option String) : Option String :=
  match left, right, face with
  | some l, some r, some f => some ("left_" ++ l ++ "+right_" ++ r ++ "+" ++ f)
  | some l, some r, none   => some ("left_" ++ l ++ "+right_" ++ r)
  | some l, none,   some f => some ("left_" ++ l ++ "+" ++ f)
  | none,   some r, some f => some ("right_" ++ r ++ "+" ++ f)
  | some l, none,   none   => some ("left_" ++ l)
  | none,   some r, none   => some ("right_" ++ r)
  | none,   none,   some f => some f
  | none,   none,   none   => none

/-- The composition step of the extended `process_frame`: gated by the 2.0 s
cooldown since `self.last_gesture_time`; emitting any label records the current
time as the new `last_gesture_time`. Returns (emitted label, last_gesture_time
after the frame). -/
def compose_step (now last_gesture_time : ℚ) (left right face : Option String) :
    Option String × ℚ :=
  if now - last_gesture_time > 2.0 then
    match compose_gesture_label left right face with
    | some g => (some g, now)
    | none => (none, last_gesture_time)
  else
    (none, last_gesture_time)

/-- C3. Composite label formation (extended profile): once the engine's 2.0 s
cooldown has elapsed, the emitted label follows the exact descending priority
over the detected left-hand, right-hand and face gestures; in particular
simultaneous left fist, right peace_sign and face smile yield exactly
"left_fist+right_peace_sign+smile", and left wave with face blink yields
"left_wave+blink". Emitting a label records the current time. -/
theorem compose_label_priority_spec (now last : ℚ) (l r f : String) :
    (now - last > 2.0 →
      compose_step now last (some l) (some r) (some f) =
        (some ("left_" ++ l ++ "+right_" ++ r ++ "+" ++ f), now)) ∧
    (now - last > 2.0 →
      compose_step now last (some l) (some r) none =
        (some ("left_" ++ l ++ "+right_" ++ r), now)) ∧
    (now - last > 2.0 →
      compose_step now last (some l) none (some f) =
        (some ("left_" ++ l ++ "+" ++ f), now)) ∧
    (now - last > 2.0 →
      compose_step now last none (some r) (some f) =
        (some ("right_" ++ r ++ "+" ++ f), now)) ∧
    (now - last > 2.0 →
      compose_step now last (some l) none none = (some ("left_" ++ l), now)) ∧
    (now - last > 2.0 →
      compose_step now last none (some r) none = (some ("right_" ++ r), now)) ∧
    (now - last > 2.0 →
      compose_step now last none none (some f) = (some f, now)) ∧
    (now - last > 2.0 → compose_step now last none none none = (none, last)) ∧
    (now - last > 2.0 →
      compose_step now last (some "fist") (some "peace_sign") (some "smile") =
        (some "left_fist+right_peace_sign+smile", now)) ∧
    (now - last > 2.0 →
      compose_step now last (some "wave") none (some "blink") =
        (some "left_wave+blink", now)) := by
  refine ⟨?_, ?_, ?_, ?_, ?_, ?_, ?_, ?_, ?_, ?_⟩ <;>
    intro h <;> simp [compose_step, compose_gesture_label, h]

/-! ## Baseline `GestureDetector.process_frame` (src/src/gesture_detector.py:106-136). -/

/-- The mutable detector state of the baseline engine. -/
structure BaselineState where
  wave_history : List ℚ
  palm_up_start_time : Option ℚ
  last_gesture_time : ℚ
deriving DecidableEq

/-- The per-hand loop body of the baseline `process_frame`: for each hand, try
`detect_wave_gesture`, then (only if it did not fire) `detect_palm_up_gesture`,
breaking at the first match; both detectors update their state even when they
do not fire. Returns (detected gesture, wave history, palm-up timer). -/
def process_hands (now : ℚ) :
    List Landmarks → List ℚ → Option ℚ → Option String × List ℚ × Option ℚ
  | [], wh, ps => (none, wh, ps)
  | lmks :: rest, wh, ps =>
      match detect_wave_gesture lmks wh with
      | (true, wh') => (some "wave", wh', ps)
      | (false, wh') =>
          match detect_palm_up_gesture lmks ps now with
          | (true, ps') => (some "palm_up", wh', ps')
          | (false, ps') => process_hands now rest wh' ps'

/-- Baseline `GestureDetector.process_frame`, restricted to its detection and
state effects (frame annotation has no bearing on the state or the label): the
hand loop runs only when hands were detected AND more than 2.0 s
(`self.gesture_cooldown`) have passed since `self.last_gesture_time`; a
detected gesture records the current time. -/
def process_frame (hands : List Landmarks) (now : ℚ) (st : BaselineState) :
    Option String × BaselineState :=
  if hands.isEmpty then
    (none, st)
  else if now - st.last_gesture_time > 2.0 then
    match process_hands now hands st.wave_history st.palm_up_start_time with
    | (some g, wh, ps) => (some g, ⟨wh, ps, now⟩)
    | (none, wh, ps) => (none, ⟨wh, ps, st.last_gesture_time⟩)
  else
    (none, st)

/-- C4 counterexample. Within the 2.0 s cooldown window (here 1.0 s after the
last emitted label), a frame carrying a hand with all four fingers up leaves
the wave history untouched — `process_frame` returns the state unchanged —
although running the wave rule on that frame would have appended the wrist's
x-coordinate (history [0.5] would have become [0.5, 0.6]). The per-hand rules
are thus not evaluated during the cooldown, contradicting the claim. -/
theorem baseline_cooldown_cex :
    process_frame [wave_lmk 0.6] 1 ⟨[0.5], none, 0⟩ = (none, ⟨[0.5], none, 0⟩) ∧
    (fingers_up (wave_lmk 0.6)).countP id = 4 ∧
    ((1 : ℚ) - 0 ≤ 2.0) ∧
    (detect_wave_gesture (wave_lmk 0.6) [0.5]).2 = [0.5, 0.6] := by
  decide

/-- C4 (amended). Baseline cooldown scope: the engine's 2.0 s cooldown gates
the whole per-hand evaluation, not just label emission — for every frame
processed within 2.0 s of the last emitted label, `process_frame` skips the
gesture rules entirely, leaves the detector state (wave history, palm-up dwell
timer, last-gesture time) unchanged, and returns no label. -/
theorem baseline_cooldown_spec (hands : List Landmarks) (now : ℚ)
    (st : BaselineState) (h : now - st.last_gesture_time ≤ 2.0) :
    process_frame hands now st = (none, st) := by
  unfold process_frame
  have h2 : ¬ now - st.last_gesture_time > 2.0 := not_lt.mpr h
  by_cases he : hands.isEmpty
  · simp [he]
  · simp [he, h2]

/-- C4 witness: the amended theorem applied at a concrete in-cooldown frame. -/
theorem baseline_cooldown_spec_witness :
    process_frame [wave_lmk 0.6] 1 ⟨[0.5], none, 0⟩ = (none, ⟨[0.5], none, 0⟩) :=
  baseline_cooldown_spec [wave_lmk 0.6] 1 ⟨[0.5], none, 0⟩ (by norm_num)

/-! ## Orchestrator running loop (`GestureAgentCore.run`, src/src/main.py:104-140). -/

/-- One iteration's dispatch decision of the orchestrator loop: a label
returned by `process_frame` is handled (emitted and passed to the screenshot/AI
pipeline) only when more than 3.0 s (`gesture_cooldown`) have passed since
`last_gesture_time`; handling records the current time. Returns (dispatched?,
last_gesture_time after the iteration). -/
def outer_step (last_gesture_time now : ℚ) (detected_gesture : Option String) :
    Bool × ℚ :=
  match detected_gesture with
  | some _ =>
      if now - last_gesture_time > 3.0 then (true, now) else (false, last_gesture_time)
  | none => (false, last_gesture_time)

/-- The dispatch decisions over a sequence of (timestamp, label) iterations,
threading `last_gesture_time` (initialised to 0 in `run`). -/
def outer_run (last_gesture_time : ℚ) : List (ℚ × Option String) → List Bool
  | [] => []
  | (now, g) :: rest =>
      let r := outer_step last_gesture_time now g
      r.1 :: outer_run r.2 rest

/-- C5. Outer orchestrator cooldown: a label returned by `process_frame` is
dispatched, and the last-handled time recorded, exactly when more than 3.0 s
have elapsed since the previously handled gesture; a frame with no label never
dispatches and leaves the clock alone. Two labels 1.0 s apart (at 10 s and
11 s from loop start) dispatch only the first; two labels 3.5 s apart (at 10 s
and 13.5 s) both dispatch. -/
theorem outer_cooldown_spec (g : String) (now last : ℚ) :
    ((outer_step last now (some g)).1 = true ↔ now - last > 3.0) ∧
    (now - last > 3.0 → outer_step last now (some g) = (true, now)) ∧
    (¬ (now - last > 3.0) → outer_step last now (some g) = (false, last)) ∧
    outer_step last now none = (false, last) ∧
    outer_run 0 [(10, some "wave"), (11, some "palm_up")] = [true, false] ∧
    outer_run 0 [(10, some "wave"), (13.5, some "palm_up")] = [true, true] := by
  refine ⟨?_, ?_, ?_, rfl, by decide, by decide⟩
  · by_cases h : now - last > 3.0 <;> simp [outer_step, h]
  · intro h
    simp [outer_step, h]
  · intro h
    simp [outer_step, h]

/-! ## AI assistant client (`AIAssistant.send_message`,
src/gesture-agent-python/src/ai_assistant.py:42-92): the branch taken when the
polled run finished with status "completed". -/

/-- One content block of a thread message; `text_value` is the
`content_block.text.value` payload read when `type` is `"text"`. -/
structure ContentBlock where
  type : String
  text_value : String
deriving DecidableEq

/-- One message of the thread listing (`messages.data`), with its role and
content blocks. -/
structure ThreadMessage where
  role : String
  content : List ContentBlock
deriving DecidableEq

/-- One entry of `self.conversation_history`. -/
structure TranscriptEntry where
  user : String
  assistant : String
  timestamp : ℚ
  screenshot : Option String
deriving DecidableEq

/-- The `response_text` accumulation: concatenation of the values of the
text-type content blocks of one message, in order. -/
def collect_text (blocks : List ContentBlock) : String :=
  blocks.foldl (fun acc b => if b.type = "text" then acc ++ b.text_value else acc) ""

/-- The completed-run branch of `AIAssistant.send_message`: scan the listed
messages for the first with role "assistant"; on a hit, build the reply from
its text blocks, append a transcript entry and return the reply; with no hit
the loop falls through and the function returns Python's implicit None,
touching nothing. Returns (reply, conversation history after the call). -/
def send_message_completed (content : String) (screenshot_path : Option String)
    (now : ℚ) (messages : List ThreadMessage) (history : List TranscriptEntry) :
    Option String × List TranscriptEntry :=
  match messages.find? (fun m => m.role == "assistant") with
  | some m =>
      let response_text := collect_text m.content
      (some response_text,
       history ++ [⟨content, response_text, now, screenshot_path⟩])
  | none => (none, history)

/-- C10. When the run completes but the thread lists no assistant-role message,
`send_message` returns None — neither a reply nor an error string — and appends
nothing to the conversation transcript; when an assistant message exists (the
first in list order), it returns the concatenation of that message's text-type
content blocks and appends exactly one transcript entry recording the exchange. -/
theorem send_message_no_assistant_spec (content : String)
    (screenshot_path : Option String) (now : ℚ) (messages : List ThreadMessage)
    (history : List TranscriptEntry) :
    ((∀ m ∈ messages, m.role ≠ "assistant") →
      send_message_completed content screenshot_path now messages history =
        (none, history)) ∧
    (∀ m, messages.find? (fun m => m.role == "assistant") = some m →
      send_message_completed content screenshot_path now messages history =
        (some (collect_text m.content),
         history ++ [⟨content, collect_text m.content, now, screenshot_path⟩])) := by
  constructor
  · intro hnone
    have hf : messages.find? (fun m => m.role == "assistant") = none := by
      rw [List.find?_eq_none]
      intro m hm
      simpa using hnone m hm
    simp [send_message_completed, hf]
  · intro m hm
    simp [send_message_completed, hm]

/-! ## Configuration manager (`ConfigManager`, src/src/config_manager.py). -/

/-- A JSON-like value of the settings document and the environment map: Python
strings, numbers (ints and floats both as rationals), booleans, None, dicts
(ordered key/value lists, keys unique in every document the program builds)
and lists. -/
inductive JVal where
  | str : String → JVal
  | num : ℚ → JVal
  | bool : Bool → JVal
  | null : JVal
  | obj : List (String × JVal) → JVal
  | arr : List JVal → JVal

/-- Dict key lookup (`target[key]` on a dict that contains `key`): the first
binding of the key, `none` when absent. -/
def jlookup (key : String) : List (String × JVal) → Option JVal
  | [] => none
  | (k, v) :: t => if k = key then some v else jlookup key t

/-- Dict key assignment (`target[key] = value`): replaces the key's binding in
place, appending a new binding when the key is absent (Python dict insertion
order). -/
def jset (key : String) (value : JVal) : List (String × JVal) → List (String × JVal)
  | [] => [(key, value)]
  | (k, v) :: t => if k = key then (k, value) :: t else (k, v) :: jset key value t

/-- Python's `str.split('.')` on the dotted path, written out on the character
list so that concrete paths evaluate: an empty path yields one empty segment,
and consecutive dots yield empty segments. -/
def dotSplitChars : List Char → List String
  | [] => [""]
  | c :: rest =>
      match dotSplitChars rest with
      | [] => []
      | seg :: segs =>
          if c = '.' then "" :: seg :: segs
          else (String.mk [c] ++ seg) :: segs

/-- `path.split('.')`. -/
def dotSplit (path : String) : List String := dotSplitChars path.toList

/-- Python's `key in target` for a string target: substring containment (the
empty string is contained in every string). -/
def pyInStr (key s : String) : Bool :=
  decide (key = "") || decide (2 ≤ (s.splitOn key).length)

/-- Python's `key in target` for each shape `target` can take: dict membership
for dicts; substring test for strings; element equality for lists (a string
key equals only equal string elements); a `TypeError` (modelled as `.error`)
for numbers, booleans and None. -/
def pyContains (target : JVal) (key : String) : Except Unit Bool :=
  match target with
  | .obj fields => .ok (jlookup key fields).isSome
  | .str s => .ok (pyInStr key s)
  | .arr xs => .ok (xs.any fun v => match v with | .str t => decide (t = key) | _ => false)
  | _ => .error ()

/-- Python's `target[key]` with a string key: dict indexing for dicts, a
`TypeError` for every other shape (string, list, number, boolean, None). -/
def pyIndex (target : JVal) (key : String) : Except Unit JVal :=
  match target with
  | .obj fields =>
      match jlookup key fields with
      | some v => .ok v
      | none => .error ()
  | _ => .error ()

/-- The `for key in keys` loop of `get_config_value` inside its `try`: walk the
document; a key not `in` the current target returns the default normally;
`in`/indexing on an unsupported shape raises (`.error`), to be caught by the
surrounding `except`. -/
def cfgLoop (keys : List String) (target default : JVal) : Except Unit JVal :=
  match keys with
  | [] => .ok target
  | k :: ks =>
      match pyContains target k with
      | .error e => .error e
      | .ok false => .ok default
      | .ok true =>
          match pyIndex target k with
          | .error e => .error e
          | .ok v => cfgLoop ks v default

/-- `ConfigManager.get_config_value(path, default)`: split the dotted path,
walk the document, and catch any exception into the default. -/
def get_config_value (config : JVal) (path : String) (default : JVal) : JVal :=
  match cfgLoop (dotSplit path) config default with
  | .ok v => v
  | .error _ => default

/-- The specification's reading of a dotted-path access ("returns the stored
value when every segment exists as a key along the nested document"): a pure
nested-dictionary lookup, `some` exactly when every path segment is a dict key. -/
def dictPathLookup : List String → JVal → Option JVal
  | [], v => some v
  | k :: ks, .obj fields =>
      match jlookup k fields with
      | some v => dictPathLookup ks v
      | none => none
  | _ :: _, _ => none

/-- The caught loop agrees with the pure nested lookup, defaulted. -/
theorem cfgLoop_eq_dictPathLookup (keys : List String) :
    ∀ (target default : JVal),
      (match cfgLoop keys target default with
       | .ok v => v
       | .error _ => default) = (dictPathLookup keys target).getD default := by
  induction keys with
  | nil => intro t d; rfl
  | cons k ks ih =>
      intro t d
      cases t with
      | obj fields =>
          cases h : jlookup k fields with
          | none => simp [cfgLoop, pyContains, dictPathLookup, h]
          | some v => simp [cfgLoop, pyContains, pyIndex, dictPathLookup, h, ih]
      | str s =>
          cases hc : pyInStr k s <;>
            simp [cfgLoop, pyContains, pyIndex, dictPathLookup, hc]
      | arr xs =>
          cases hc : xs.any fun v => match v with | .str t => decide (t = k) | _ => false <;>
            simp [cfgLoop, pyContains, pyIndex, dictPathLookup, hc]
      | num q => simp [cfgLoop, pyContains, dictPathLookup]
      | bool b => simp [cfgLoop, pyContains, dictPathLookup]
      | null => simp [cfgLoop, pyContains, dictPathLookup]

/-- C6. Configuration path reads are total: for every document, dotted path
and caller-supplied default, `get_config_value` equals the pure nested-dict
lookup when every segment exists as a key along nested dicts, and the
caller-supplied default otherwise — in particular it never raises: a missing
intermediate key returns the default by the normal path, and an intermediate
non-dictionary value only ever raises inside the `try`, which the `except`
turns into the same default. -/
theorem get_config_value_total_spec (config : JVal) (path : String) (default : JVal) :
    get_config_value config path default =
      (dictPathLookup (dotSplit path) config).getD default :=
  cfgLoop_eq_dictPathLookup (dotSplit path) config default

/-- `ConfigManager.get_default_config`. -/
def get_default_config : JVal :=
  .obj [
    ("gestures", .obj [
      ("wave", .obj [
        ("enabled", .bool true),
        ("description", .str "Horizontal hand wave"),
        ("confidence_threshold", .num 0.8)]),
      ("palm_up", .obj [
        ("enabled", .bool true),
        ("description", .str "Open palm facing camera"),
        ("confidence_threshold", .num 0.7)])]),
    ("screenshot", .obj [
      ("mode", .str "fullscreen"),
      ("quality", .num 90),
      ("format", .str "PNG")]),
    ("ui", .obj [
      ("show_camera_preview", .bool true),
      ("response_window_timeout", .num 10),
      ("enable_tts", .bool false)]),
    ("openai", .obj [
      ("model", .str "gpt-4"),
      ("max_tokens", .num 500),
      ("temperature", .num 0.7)]),
    ("system", .obj [
      ("camera_device", .num 0),
      ("fps", .num 30),
      ("log_level", .str "INFO"),
      ("auto_cleanup_days", .num 7)])]

/-- The environment/secrets map (`self.env_vars`): ordered key/value list with
JSON-shaped values (`GESTURE_SENSITIVITY` is loaded as a float, the rest as
strings). -/
def Env : Type := List (String × JVal)

/-- `ConfigManager.get_env_var(key, default="")`. -/
def get_env_var (env : Env) (key : String) : JVal :=
  (jlookup key env).getD (.str "")

/-- Python truthiness of the value shapes the environment and settings maps
hold (`if not value`): empty string, zero, False, None, empty dict and empty
list are falsy. -/
def pyTruthy : JVal → Bool
  | .str s => decide (s ≠ "")
  | .num q => decide (q ≠ 0)
  | .bool b => b
  | .null => false
  | .obj [] => false
  | .obj (_ :: _) => true
  | .arr [] => false
  | .arr (_ :: _) => true

/-- The shapes a Python chained numeric comparison (`0.1 <= v <= 1.0`) accepts:
numbers compare as themselves, booleans as 0/1; comparing None, a string, a
dict or a list against a number raises a `TypeError` (modelled as `none`). -/
def pyNum : JVal → Option ℚ
  | .num q => some q
  | .bool b => some (if b then 1 else 0)
  | _ => none

/-- Python `v == "s"` for a JSON-shaped `v`: true only for the equal string. -/
def jvalEqStr (v : JVal) (s : String) : Bool :=
  match v with
  | .str t => decide (t = s)
  | _ => false

/-- `ConfigManager.validate_config`: collects the error strings in source
order and returns `(len(errors) == 0, errors)`; `none` models the `TypeError`
that propagates if a range-checked config value is not a number (missing keys
default to None). -/
def validate_config (env : Env) (config : JVal) : Option (Bool × List String) :=
  let errors1 :=
    if pyTruthy (get_env_var env "OPENAI_API_KEY") then ([] : List String)
    else ["OpenAI API key is required"]
  match pyNum (get_config_value config "gestures.wave.confidence_threshold" .null) with
  | none => none
  | some gesture_sensitivity =>
    let errors2 := errors1 ++
      (if ¬ (0.1 ≤ gesture_sensitivity ∧ gesture_sensitivity ≤ 1.0) then
        ["Gesture sensitivity must be between 0.1 and 1.0"] else [])
    match pyNum (get_config_value config "screenshot.quality" .null) with
    | none => none
    | some screenshot_quality =>
      let errors3 := errors2 ++
        (if ¬ (10 ≤ screenshot_quality ∧ screenshot_quality ≤ 100) then
          ["Screenshot quality must be between 10 and 100"] else [])
      let screenshot_mode := get_config_value config "screenshot.mode" .null
      let errors4 := errors3 ++
        (if ¬ (jvalEqStr screenshot_mode "fullscreen" = true ∨
               jvalEqStr screenshot_mode "active_window" = true) then
          ["Screenshot mode must be 'fullscreen' or 'active_window'"] else [])
      some (decide (errors4.length = 0), errors4)

/-- `ConfigManager.update_config` without its file write, on the dotted path
already split: walks the document creating empty dicts for missing
intermediate keys and assigns the last segment. (On a non-dict intermediate
the source raises and catches, leaving the document partially modified; the
claims only exercise all-dict paths, modelled here as the identity.) -/
def update_config_keys (keys : List String) (value : JVal) (target : JVal) : JVal :=
  match keys, target with
  | [], t => t
  | [k], .obj fields => .obj (jset k value fields)
  | k :: ks, .obj fields =>
      let child := (jlookup k fields).getD (.obj [])
      .obj (jset k (update_config_keys ks value child) fields)
  | _, t => t

/-- `ConfigManager.update_config(path, value)` (the in-memory update). -/
def update_config (config : JVal) (path : String) (value : JVal) : JVal :=
  update_config_keys (dotSplit path) value config

/-- The default environment of `load_env_vars` with no `.env` overrides: empty
API key and assistant id, the stated directory/sensitivity/mode defaults. -/
def env_no_key : Env :=
  [("OPENAI_API_KEY", .str ""),
   ("ASSISTANT_ID", .str ""),
   ("SCREENSHOT_DIR", .str "./screenshots"),
   ("GESTURE_SENSITIVITY", .num 0.8),
   ("CAPTURE_MODE", .str "fullscreen")]

/-- The same environment with a non-empty API key configured. -/
def env_with_key : Env :=
  [("OPENAI_API_KEY", .str "sk-test"),
   ("ASSISTANT_ID", .str ""),
   ("SCREENSHOT_DIR", .str "./screenshots"),
   ("GESTURE_SENSITIVITY", .num 0.8),
   ("CAPTURE_MODE", .str "fullscreen")]

/-- C7. `validate_config` returns `(ok, problems)` with `ok` true exactly when
the problem list is empty; on the untouched default document it reports
exactly the API-key problem when the key is empty and no problem when the key
is non-empty; setting `gestures.wave.confidence_threshold` to 0.05 adds
exactly the sensitivity-range problem; setting `screenshot.quality` to 5 adds
exactly the quality-range problem; setting `screenshot.mode` to a value
outside {"fullscreen", "active_window"} adds exactly the mode problem. -/
theorem validate_config_spec :
    (∀ (env : Env) (config : JVal) (r : Bool × List String),
      validate_config env config = some r → (r.1 = true ↔ r.2 = [])) ∧
    validate_config env_no_key get_default_config =
      some (false, ["OpenAI API key is required"]) ∧
    validate_config env_with_key get_default_config = some (true, []) ∧
    validate_config env_with_key
        (update_config get_default_config "gestures.wave.confidence_threshold" (.num 0.05)) =
      some (false, ["Gesture sensitivity must be between 0.1 and 1.0"]) ∧
    validate_config env_with_key
        (update_config get_default_config "screenshot.quality" (.num 5)) =
      some (false, ["Screenshot quality must be between 10 and 100"]) ∧
    validate_config env_with_key
        (update_config get_default_config "screenshot.mode" (.str "window")) =
      some (false, ["Screenshot mode must be 'fullscreen' or 'active_window'"]) := by
  refine ⟨?_, by decide, by decide, by decide, by decide, by decide⟩
  intro env config r h
  unfold validate_config at h
  cases h1 : pyNum (get_config_value config "gestures.wave.confidence_threshold" JVal.null) with
  | none => simp only [h1] at h; exact absurd h (by simp)
  | some gs =>
      simp only [h1] at h
      cases h2 : pyNum (get_config_value config "screenshot.quality" JVal.null) with
      | none => simp only [h2] at h; exact absurd h (by simp)
      | some q =>
          simp only [h2, Option.some.injEq] at h
          subst h
          constructor
          · intro hb
            exact List.length_eq_zero.mp (of_decide_eq_true hb)
          · intro hb
            exact decide_eq_true (List.length_eq_zero.mpr hb)


/-! ## Snapshot export/import (`ConfigManager.export_config` /
`ConfigManager.import_config`, src/src/config_manager.py:180-215). -/

/-- Left-pads a digit string with zeros to the given width. -/
def padZeros (s : String) (k : Nat) : String :=
  String.mk (List.replicate (k - s.length) '0') ++ s

/-- Decimal rendering of a rational whose denominator divides a power of ten
(every float the environment map holds), mirroring Python's `str` on floats
(`str(0.8) == "0.8"`); other denominators fall back to a fraction rendering
(unreachable for float-valued data). -/
def decimalStr (q : ℚ) : String :=
  match (List.range 21).find? (fun k => decide (10 ^ k % q.den = 0)) with
  | some k =>
      let scaled : Nat := q.num.natAbs * (10 ^ k / q.den)
      let sign := if q.num < 0 then "-" else ""
      if k = 0 then sign ++ toString scaled
      else sign ++ toString (scaled / 10 ^ k) ++ "." ++ padZeros (toString (scaled % 10 ^ k)) k
  | none => toString q.num ++ "/" ++ toString q.den

/-- Python's `str(value)` on the JSON-shaped values an imported snapshot's
`env_vars` can hold: identity on strings, decimal rendering on numbers,
`True`/`False`/`None` on booleans and null. (Dict and list renderings are not
modelled; no proof below depends on them.) -/
def pyStr : JVal → String
  | .str s => s
  | .num q => decimalStr q
  | .bool b => if b then "True" else "False"
  | .null => "None"
  | .obj _ => ""
  | .arr _ => ""

/-- `ConfigManager.set_env_var` restricted to its in-memory effect
(`self.env_vars[key] = value`; the `.env` file and process environment are
outside the model). The stored value is always the string passed. -/
def set_env_var (env : Env) (key : String) (value : String) : Env :=
  jset key (.str value) env

/-- The dict comprehension of `export_config`:
`{k: v for k, v in self.env_vars.items() if k != 'OPENAI_API_KEY'}`. -/
def export_env_vars : Env → Env
  | [] => []
  | (k, v) :: t =>
      if k ≠ "OPENAI_API_KEY" then (k, v) :: export_env_vars t
      else export_env_vars t

/-- `ConfigManager.export_config` restricted to the snapshot contents it
writes: the settings document plus the environment map with every
`OPENAI_API_KEY` binding dropped. -/
def export_config (config : JVal) (env_vars : Env) : JVal :=
  .obj [("config", config), ("env_vars", .obj (export_env_vars env_vars))]

/-- The `for key, value in import_data['env_vars'].items()` loop of
`import_config`: every non-`OPENAI_API_KEY` entry is written through
`set_env_var(key, str(value))`, in order. -/
def import_env_loop (env : Env) : List (String × JVal) → Env
  | [] => env
  | (key, value) :: rest =>
      if key ≠ "OPENAI_API_KEY" then
        import_env_loop (set_env_var env key (pyStr value)) rest
      else
        import_env_loop env rest

/-- `ConfigManager.import_config` restricted to its in-memory effect on
(settings document, environment map): a present `config` entry replaces the
document; a present dict-shaped `env_vars` entry is folded through the import
loop (a non-dict `env_vars` raises on `.items()` after the document was
already replaced; a non-dict top level raises or misses before any mutation). -/
def import_config (config : JVal) (env : Env) (data : JVal) : JVal × Env :=
  match data with
  | .obj fields =>
      let config2 := match jlookup "config" fields with
        | some c => c
        | none => config
      let env2 := match jlookup "env_vars" fields with
        | some (.obj evs) => import_env_loop env evs
        | _ => env
      (config2, env2)
  | _ => (config, env)

/-- The values a map binds to a key, in order (the analysis-side view used to
say "the map binds `k` exactly once, to `v`", as Python's unique-keyed dicts
do). -/
def selectKey (k : String) : List (String × JVal) → List JVal
  | [] => []
  | (k2, v) :: t => if k2 = k then v :: selectKey k t else selectKey k t

/-- Setting a key stores exactly that binding. -/
theorem jlookup_jset_self (e : Env) (k : String) (v : JVal) :
    jlookup k (jset k v e) = some v := by
  induction e with
  | nil => simp [jset, jlookup]
  | cons p t ih =>
      obtain ⟨pk, pv⟩ := p
      by_cases h : pk = k
      · simp [jset, jlookup, h]
      · simpa [jset, jlookup, h] using ih

/-- Setting one key leaves every other key's binding alone. -/
theorem jlookup_jset_other (e : Env) (k k2 : String) (v : JVal) (h : k2 ≠ k) :
    jlookup k (jset k2 v e) = jlookup k e := by
  induction e with
  | nil => simp [jset, jlookup, h]
  | cons p t ih =>
      obtain ⟨pk, pv⟩ := p
      by_cases hp : pk = k2
      · have hpk : pk ≠ k := by rw [hp]; exact h
        simp [jset, jlookup, hp, hpk, h]
      · by_cases hk : pk = k <;> simp [jset, jlookup, hp, hk, Ne.symm h, ih]

/-- The import loop never changes the `OPENAI_API_KEY` binding. -/
theorem import_env_loop_api_key (items : List (String × JVal)) :
    ∀ e : Env, jlookup "OPENAI_API_KEY" (import_env_loop e items) =
      jlookup "OPENAI_API_KEY" e := by
  induction items with
  | nil => intro e; rfl
  | cons p t ih =>
      intro e
      obtain ⟨pk, pv⟩ := p
      by_cases h : pk ≠ "OPENAI_API_KEY"
      · rw [show import_env_loop e ((pk, pv) :: t) =
            import_env_loop (set_env_var e pk (pyStr pv)) t from by
            simp [import_env_loop, h], ih,
          set_env_var, jlookup_jset_other _ _ _ _ h]
      · rw [show import_env_loop e ((pk, pv) :: t) = import_env_loop e t from by
            simp [import_env_loop, h], ih]

/-- The import loop leaves keys that appear in none of its items alone. -/
theorem import_env_loop_absent (k : String) (items : List (String × JVal)) :
    ∀ e : Env, selectKey k items = [] →
      jlookup k (import_env_loop e items) = jlookup k e := by
  induction items with
  | nil => intro e _; rfl
  | cons p t ih =>
      intro e hsel
      obtain ⟨pk, pv⟩ := p
      by_cases hp : pk = k
      · simp [selectKey, hp] at hsel
      · rw [show selectKey k ((pk, pv) :: t) = selectKey k t from by
          simp [selectKey, hp]] at hsel
        by_cases h : pk ≠ "OPENAI_API_KEY"
        · rw [show import_env_loop e ((pk, pv) :: t) =
              import_env_loop (set_env_var e pk (pyStr pv)) t from by
              simp [import_env_loop, h], ih _ hsel,
            set_env_var, jlookup_jset_other _ _ _ _ hp]
        · rw [show import_env_loop e ((pk, pv) :: t) = import_env_loop e t from by
              simp [import_env_loop, h], ih _ hsel]

/-- A key bound exactly once among the imported items, and different from the
API key, ends bound to the string coercion of its imported value. -/
theorem import_env_loop_restores (k : String) (v : JVal)
    (hk : k ≠ "OPENAI_API_KEY") (items : List (String × JVal)) :
    ∀ e : Env, selectKey k items = [v] →
      jlookup k (import_env_loop e items) = some (.str (pyStr v)) := by
  induction items with
  | nil => intro e h; simp [selectKey] at h
  | cons p t ih =>
      intro e hsel
      obtain ⟨pk, pv⟩ := p
      by_cases hp : pk = k
      · rw [show selectKey k ((pk, pv) :: t) = pv :: selectKey k t from by
          simp [selectKey, hp]] at hsel
        have hv : pv = v := (List.cons_eq_cons.mp hsel).1
        have ht : selectKey k t = [] := (List.cons_eq_cons.mp hsel).2
        have hnotapi : pk ≠ "OPENAI_API_KEY" := by rw [hp]; exact hk
        rw [show import_env_loop e ((pk, pv) :: t) =
            import_env_loop (set_env_var e pk (pyStr pv)) t from by
            simp [import_env_loop, hnotapi],
          import_env_loop_absent k t _ ht, set_env_var, hp, hv]
        exact jlookup_jset_self _ _ _
      · rw [show selectKey k ((pk, pv) :: t) = selectKey k t from by
          simp [selectKey, hp]] at hsel
        by_cases h : pk ≠ "OPENAI_API_KEY"
        · rw [show import_env_loop e ((pk, pv) :: t) =
              import_env_loop (set_env_var e pk (pyStr pv)) t from by
              simp [import_env_loop, h], ih _ hsel]
        · rw [show import_env_loop e ((pk, pv) :: t) = import_env_loop e t from by
              simp [import_env_loop, h], ih _ hsel]

/-- Dropping the API key from the map does not change any other key's
bindings. -/
theorem selectKey_export_env_vars (env : Env) (k : String)
    (hk : k ≠ "OPENAI_API_KEY") :
    selectKey k (export_env_vars env) = selectKey k env := by
  induction env with
  | nil => rfl
  | cons p t ih =>
      obtain ⟨pk, pv⟩ := p
      by_cases h2 : pk = "OPENAI_API_KEY"
      · have h1 : pk ≠ k := by rw [h2]; exact fun hh => hk hh.symm
        simp [export_env_vars, selectKey, h1, h2, Ne.symm hk, ih]
      · by_cases h1 : pk = k <;>
          simp [export_env_vars, selectKey, h1, h2, hk, ih]

/-- The exported map holds no `OPENAI_API_KEY` binding. -/
theorem export_env_vars_no_api_key (env : Env) :
    jlookup "OPENAI_API_KEY" (export_env_vars env) = none := by
  induction env with
  | nil => rfl
  | cons p t ih =>
      obtain ⟨pk, pv⟩ := p
      by_cases h : pk = "OPENAI_API_KEY" <;> simp [export_env_vars, jlookup, h, ih]

/-- C8 counterexample. A full export/import round trip does not restore the
float-valued `GESTURE_SENSITIVITY` environment field to its pre-export value:
`import_config` writes `str(value)`, so the float 0.8 comes back as the string
"0.8". -/
theorem export_import_restore_cex :
    jlookup "GESTURE_SENSITIVITY" env_with_key = some (JVal.num 0.8) ∧
    jlookup "GESTURE_SENSITIVITY"
        (import_config get_default_config env_with_key
          (export_config get_default_config env_with_key)).2 =
      some (JVal.str "0.8") ∧
    JVal.str "0.8" ≠ JVal.num 0.8 :=
  ⟨rfl, rfl, fun h => JVal.noConfusion h⟩

/-- C8 (amended). API-key noninterference of snapshots: environment maps that
agree outside their `OPENAI_API_KEY` bindings produce identical exported
snapshot contents; the key never appears in the exported `env_vars`;
`import_config` never writes or overwrites the `OPENAI_API_KEY` binding
regardless of the imported data; and an export/import round trip restores the
settings document exactly and every non-secret environment field up to string
coercion — a field bound once to `v` comes back bound to `str(v)` (so
string-valued fields are restored exactly, while the float-valued
`GESTURE_SENSITIVITY` field comes back as its decimal string, not as the
original float — see the counterexample). -/
theorem export_import_spec :
    (∀ (config : JVal) (env1 env2 : Env),
      export_env_vars env1 = export_env_vars env2 →
      export_config config env1 = export_config config env2) ∧
    (∀ env : Env, jlookup "OPENAI_API_KEY" (export_env_vars env) = none) ∧
    (∀ (config : JVal) (env : Env) (data : JVal),
      jlookup "OPENAI_API_KEY" (import_config config env data).2 =
        jlookup "OPENAI_API_KEY" env) ∧
    (∀ (config : JVal) (env : Env),
      (import_config config env (export_config config env)).1 = config) ∧
    (∀ (config : JVal) (env : Env) (k : String) (v : JVal),
      k ≠ "OPENAI_API_KEY" →
      selectKey k env = [v] →
      jlookup k (import_config config env (export_config config env)).2 =
        some (.str (pyStr v))) := by
  refine ⟨?_, export_env_vars_no_api_key, ?_, ?_, ?_⟩
  · intro config env1 env2 h
    unfold export_config
    rw [h]
  · intro config env data
    cases data with
    | obj fields =>
        cases hev : jlookup "env_vars" fields with
        | none => simp [import_config, hev]
        | some v =>
            cases v with
            | obj evs => simp [import_config, hev, import_env_loop_api_key]
            | str s => simp [import_config, hev]
            | num q => simp [import_config, hev]
            | bool b => simp [import_config, hev]
            | null => simp [import_config, hev]
            | arr xs => simp [import_config, hev]
    | str s => rfl
    | num q => rfl
    | bool b => rfl
    | null => rfl
    | arr xs => rfl
  · intro config env
    simp [import_config, export_config, jlookup]
  · intro config env k v hk hsel
    have hitems : selectKey k (export_env_vars env) = [v] := by
      rw [selectKey_export_env_vars env k hk, hsel]
    have henv : (import_config config env (export_config config env)).2 =
        import_env_loop env (export_env_vars env) := by
      simp [import_config, export_config, jlookup]
    rw [henv]
    exact import_env_loop_restores k v hk _ env hitems

/-! ## Screenshot capture (`ScreenshotManager.capture_active_window`,
src/src/screenshot_manager.py:85-132). -/

/-- The active-window descriptor returned by `get_active_window_info`
(bounds/window id/title play no role in the fallback behaviour under
analysis). -/
structure WindowInfo where
  app_name : String
deriving DecidableEq

/-- Outcome of the window-capture attempt inside the `try` of
`capture_active_window` once a window was resolved: `raised` when any step
(image creation, encoding, file write) raises an exception; `noImage` when
`CGWindowListCreateImage` returns no image without raising, so the `if image:`
block is skipped; `written p` when the image is rendered and written to the
file path `p`. -/
inductive WindowCaptureOutcome where
  | raised : WindowCaptureOutcome
  | noImage : WindowCaptureOutcome
  | written : String → WindowCaptureOutcome
deriving DecidableEq

/-- The OS-dependent facts one invocation of `capture_active_window` observes:
the resolved active window (if any), the outcome of the window-capture
attempt, and what `capture_fullscreen` would return for given quality/format
arguments. -/
structure CaptureEnv where
  window_info : Option WindowInfo
  window_capture : WindowCaptureOutcome
  fullscreen_result : Nat → String → Option String

/-- `ScreenshotManager.capture_active_window(quality, format)`: no resolved
window falls back to `capture_fullscreen(quality, format)`; a raised exception
during the window capture is caught and likewise falls back; a successful
render returns the written path; an absent image without an exception falls
out of the `if image:` block and returns Python's implicit None — no
fallback. -/
def capture_active_window (env : CaptureEnv) (quality : Nat) (format2 : String) :
    Option String :=
  match env.window_info with
  | none => env.fullscreen_result quality format2
  | some _ =>
      match env.window_capture with
      | .raised => env.fullscreen_result quality format2
      | .noImage => none
      | .written filepath => some filepath

/-- An invocation state where a window is resolved, the OS returns no image
(without raising), and a fullscreen capture would succeed. -/
def c9_env : CaptureEnv :=
  ⟨some ⟨"Safari"⟩, .noImage, fun _ _ => some "./screenshots/fullscreen_20240101_000000.png"⟩

/-- C9 counterexample. With an active window resolved and the window-image
creation returning no image (a capture failure that raises nothing),
`capture_active_window` returns an absent result even though
`capture_fullscreen` with the same arguments would succeed: the fallback only
runs on a missing window or a raised exception. -/
theorem capture_active_window_cex :
    capture_active_window c9_env 90 "PNG" = none ∧
    c9_env.fullscreen_result 90 "PNG" =
      some "./screenshots/fullscreen_20240101_000000.png" :=
  ⟨rfl, rfl⟩

/-- C9 (amended). Active-window capture fallback: if no active window
descriptor is resolved, `capture_active_window` returns the result of
`capture_fullscreen` with the same quality and format arguments; any raised
failure during the window capture is caught and likewise falls back; a
successful window capture returns its written path. But when the OS returns no
window image without raising, the function returns an absent result without
attempting the fullscreen fallback (see the counterexample). -/
theorem capture_active_window_fallback_spec (env : CaptureEnv) (quality : Nat)
    (format2 : String) :
    (env.window_info = none →
      capture_active_window env quality format2 =
        env.fullscreen_result quality format2) ∧
    (env.window_capture = .raised →
      capture_active_window env quality format2 =
        env.fullscreen_result quality format2) ∧
    (∀ wi p, env.window_info = some wi → env.window_capture = .written p →
      capture_active_window env quality format2 = some p) ∧
    (∀ wi, env.window_info = some wi → env.window_capture = .noImage →
      capture_active_window env quality format2 = none) := by
  refine ⟨?_, ?_, ?_, ?_⟩
  · intro h
    simp [capture_active_window, h]
  · intro h
    cases hw : env.window_info with
    | none => simp [capture_active_window, hw]
    | some wi => simp [capture_active_window, hw, h]
  · intro wi p hw hc
    simp [capture_active_window, hw, hc]
  · intro wi hw hc
    simp [capture_active_window, hw, hc]
